import Mathlib

/-!
Shallow embedding of the university-admission chatbot engine.

The repository holds two near-duplicate variants of the same engine:
* `V1` — `src/university-admission-chatbot/chatbot.py` (threaded orchestrator
  with a 5-second bounded wait, dynamic `getattr` handler dispatch, session
  update inside the background unit);
* `V2` — `src/chatbot.py` (sequential orchestrator, explicit `if/elif`
  dispatch, session update via `log_interaction` at the start of every call).

Python strings are modelled as Lean `String`, Python dicts keyed by user id as
functions `String → Option _`, the external spaCy tokenizer as an opaque
`Tokenizer` record (the code only reads each token's literal text and the
entity strings), `random.choice` as an opaque `pick : List String → String`
assumed to return a member of a non-empty pool, and Python exceptions as
`Except Unit _`.  `datetime` values are modelled as (proleptic-Gregorian
ordinal, second-of-day) pairs; `timedelta.days` is flooring division by 86400,
exactly as in CPython.
-/

namespace Chatbot

/-- The apostrophe character, kept out of string literals. -/
def apo : String := String.singleton (Char.ofNat 39)

/-- Python `needle in hay` on strings: contiguous substring test. -/
def substrOf (needle hay : String) : Bool := decide (needle.data <:+: hay.data)

/-- ASCII lower-casing of one character (the fragment of Python `str.lower`
exercised by the ASCII keyword tables and file extensions). -/
def lowerChar (c : Char) : Char :=
  if 'A' ≤ c ∧ c ≤ 'Z' then Char.ofNat (c.toNat + 32) else c

/-- ASCII upper-casing of one character. -/
def upperChar (c : Char) : Char :=
  if 'a' ≤ c ∧ c ≤ 'z' then Char.ofNat (c.toNat - 32) else c

/-- Python `s.lower()` (structural-recursion model, ASCII range). -/
def lowerStr (s : String) : String := ⟨s.data.map lowerChar⟩

/-- Split a character list at every occurrence of `sep` (keeping empty
segments, like Python `str.split(sep)`). -/
def splitChar (sep : Char) : List Char → List (List Char)
  | [] => [[]]
  | c :: cs =>
    match splitChar sep cs with
    | [] => [[c]]
    | h :: t => if c = sep then [] :: h :: t else (c :: h) :: t

/-- Whitespace characters stripped by Python `str.strip()`. -/
def pySpace (c : Char) : Bool :=
  c = ' ' ∨ c = '\t' ∨ c = '\n' ∨ c = '\r' ∨ c = Char.ofNat 11 ∨ c = Char.ofNat 12

/-- Python `s.strip()`. -/
def pyStrip (s : String) : String :=
  ⟨((s.data.dropWhile pySpace).reverse.dropWhile pySpace).reverse⟩

/-- `general_responses['greeting']` — identical in both variants. -/
def greetingPool : List String :=
  ["Hello! Welcome to University Admission Assistant. How can I help you today?",
   "Hi there! I" ++ apo ++ "m here to help with your university admission questions.",
   "Welcome! Ask me anything about university admissions."]

/-- `general_responses['fallback']` — identical in both variants. -/
def fallbackPool : List String :=
  ["I" ++ apo ++ "m sorry, I didn" ++ apo ++ "t understand that. I can help with admission deadlines, required documents, fees, and application status.",
   "Could you rephrase that? I specialize in university admission queries.",
   "I" ++ apo ++ "m not sure I follow. I can assist with admission-related questions."]

/-- `general_responses['timeout']` — V1 only. -/
def timeoutPool : List String :=
  ["I" ++ apo ++ "m still processing your request. Please wait a moment while I gather the information.",
   "I" ++ apo ++ "m working on your question and will respond shortly.",
   "Just a moment while I retrieve the information you requested."]

/-- `general_responses['file_types']` — identical in both variants. -/
def fileTypesMsg : String := "I accept PDF, JPG, and PNG files for uploads."

/-- The fixed intent scan order (insertion order of `intent_keywords` in V1,
`if`-chain order in V2). -/
def intentOrder : List String :=
  ["deadline", "documents", "fees", "status", "help", "greeting", "upload", "contact"]

/-- The `intent_keywords` table, identical in both variants. -/
def intentKeywords : String → List String
  | "deadline" => ["deadline", "due", "when", "last date", "cutoff", "close", "final date"]
  | "documents" => ["document", "paperwork", "required", "need", "submit", "upload", "file", "transcript", "cv", "resume", "certificate"]
  | "fees" => ["fee", "payment", "cost", "price", "charge", "tuition", "deposit"]
  | "status" => ["status", "progress", "check", "review", "decision", "update", "track"]
  | "help" => ["help", "assistance", "support", "guide", "explain", "how to", "what is"]
  | "greeting" => ["hello", "hi", "hey", "greetings", "good morning", "good afternoon"]
  | "upload" => ["upload", "send", "submit", "attach", "provide"]
  | "contact" => ["contact", "email", "phone", "number", "address", "reach"]
  | _ => []

/-- The fixed program scan order (insertion order of `program_types`). -/
def programOrder : List String := ["undergraduate", "graduate", "phd", "scholarship"]

/-- The `program_types` table, identical in both variants. -/
def programKeywords : String → List String
  | "undergraduate" => ["undergrad", "bachelor", "undergraduate", "college"]
  | "graduate" => ["graduate", "master", "masters", "ms", "mba"]
  | "phd" => ["phd", "doctorate", "doctoral"]
  | "scholarship" => ["scholarship", "financial aid", "grant"]
  | _ => []

/-- The external spaCy pipeline, reduced to the only two capabilities the code
reads: the literal text of each token and the entity strings.  The code always
feeds it the lower-cased query. -/
structure Tokenizer where
  tok : String → List String
  ents : String → List String

/-- A simple whitespace tokenizer used to instantiate concrete runs (spaCy
tokens of the single-word queries used in the examples coincide with this);
its entity recognizer finds nothing, as spaCy does on such queries. -/
def wsTok : Tokenizer :=
  ⟨fun s => ((splitChar ' ' s.data).filter (fun l => l ≠ [])).map (fun l => ⟨l⟩),
   fun _ => []⟩

/-- A deterministic instantiation of `random.choice`. -/
def pickHead (l : List String) : String := l.headD ""

/-- `random.choice` on a non-empty pool returns a member of the pool. -/
def PickValid (pick : List String → String) : Prop :=
  ∀ l : List String, l ≠ [] → pick l ∈ l

theorem pickHead_valid : PickValid pickHead := by
  intro l h
  cases l with
  | nil => exact absurd rfl h
  | cons a t => simp [pickHead]

/-- Result of `analyze_query`. -/
structure QueryAnalysis where
  entities : List String
  intents : List String
  programs : List String
deriving DecidableEq

/-- The intent loop of `analyze_query`:
`if any(token.text in keywords for token in doc): intents.append(intent)`,
scanning the fixed table order. -/
def detectIntents (toks : List String) : List String :=
  intentOrder.filter (fun intent => toks.any (fun t => (intentKeywords intent).contains t))

/-- The program loop of `analyze_query`:
`if any(keyword in query.lower() for keyword in keywords)`. -/
def detectPrograms (query : String) : List String :=
  programOrder.filter (fun p => (programKeywords p).any (fun kw => substrOf kw (lowerStr query)))

/-- `analyze_query` (identical logic in both variants): lower-case the query,
tokenize, detect intents by token-exact match and programs by substring
containment. -/
def analyze_query (T : Tokenizer) (query : String) : QueryAnalysis :=
  ⟨T.ents (lowerStr query), detectIntents (T.tok (lowerStr query)), detectPrograms query⟩

/-- Part of a file name after its last `.` (the `filename.rsplit('.', 1)[1]`
of the source, meaningful when the name contains a dot). -/
def afterLastDot (s : String) : String :=
  ⟨(s.data.reverse.takeWhile (fun c => c ≠ '.')).reverse⟩

/-- `allowed_file` (identical in both variants):
`'.' in filename and filename.rsplit('.', 1)[1].lower() in {'pdf','jpg','jpeg','png'}`. -/
def allowed_file (filename : String) : Bool :=
  filename.data.contains '.' &&
    (lowerStr (afterLastDot filename) ∈ (["pdf", "jpg", "jpeg", "png"] : List String))

/-! ### Knowledge base (the built-in defaults of `load_admission_data`) -/

/-- The admission knowledge base: deadlines as calendar dates, document
checklists, fee pairs `(application_fee, tuition_deposit)`, FAQ entries in
insertion order. -/
structure KB where
  deadlines : String → Option (Nat × Nat × Nat)
  documents : String → Option (List String)
  fees : String → Option (Nat × Nat)
  faqs : List (String × String)

/-- Default `deadlines` of the threaded variant (2024 dates). -/
def defaultDeadlinesV1 : String → Option (Nat × Nat × Nat)
  | "undergraduate" => some (2024, 12, 15)
  | "graduate" => some (2024, 11, 30)
  | "phd" => some (2024, 10, 31)
  | "scholarship" => some (2024, 9, 15)
  | _ => none

/-- Default `deadlines` of the simple variant (2023 dates). -/
def defaultDeadlinesV2 : String → Option (Nat × Nat × Nat)
  | "undergraduate" => some (2023, 12, 15)
  | "graduate" => some (2023, 11, 30)
  | "phd" => some (2023, 10, 31)
  | "scholarship" => some (2023, 9, 15)
  | _ => none

/-- Default `documents` (identical in both variants). -/
def defaultDocuments : String → Option (List String)
  | "undergraduate" => some ["High school transcripts", "Standardized test scores",
      "Personal statement", "Letters of recommendation"]
  | "graduate" => some ["Bachelor" ++ apo ++ "s degree transcripts", "GRE/GMAT scores",
      "Statement of purpose", "Letters of recommendation"]
  | "phd" => some ["Master" ++ apo ++ "s degree transcripts", "Research proposal",
      "Publications (if any)", "Letters of recommendation"]
  | _ => none

/-- Default `fees` (identical in both variants). -/
def defaultFees : String → Option (Nat × Nat)
  | "undergraduate" => some (50, 500)
  | "graduate" => some (75, 750)
  | "phd" => some (100, 0)
  | _ => none

/-- Default `faqs` (identical in both variants). -/
def defaultFaqs : List (String × String) :=
  [("application_process", "The application process involves submitting an online form, required documents, and paying the application fee. You" ++ apo ++ "ll receive a confirmation email once submitted."),
   ("visa_requirements", "International students need to provide proof of financial support, acceptance letter, and valid passport to apply for a student visa."),
   ("housing_options", "We offer on-campus dormitories and can provide information about off-campus housing options."),
   ("contact", "You can reach the admissions office at admissions@university.edu or call +1 (555) 123-4567."),
   ("upload_help", "You can upload documents through our portal after creating an account. Accepted formats are PDF, JPG, and PNG.")]

/-- The default knowledge base of the threaded variant. -/
def kbV1 : KB := ⟨defaultDeadlinesV1, defaultDocuments, defaultFees, defaultFaqs⟩

/-- The default knowledge base of the simple variant. -/
def kbV2 : KB := ⟨defaultDeadlinesV2, defaultDocuments, defaultFees, defaultFaqs⟩

/-! ### Dates (the fragment of `datetime` the code uses)

`datetime.strptime(s, "%Y-%m-%d")` yields midnight of a calendar date;
`datetime.now()` carries a time of day; subtraction yields a `timedelta`
whose `.days` is the floor of the difference in seconds divided by 86400. -/

/-- Gregorian leap-year test. -/
def isLeap (y : Nat) : Bool := (y % 4 == 0 && y % 100 != 0) || (y % 400 == 0)

/-- Days in the months before month `m`. -/
def daysBeforeMonth (leap : Bool) (m : Nat) : Nat :=
  (match m with
   | 1 => 0 | 2 => 31 | 3 => 59 | 4 => 90 | 5 => 120 | 6 => 151
   | 7 => 181 | 8 => 212 | 9 => 243 | 10 => 273 | 11 => 304 | 12 => 334
   | _ => 0)
  + (if leap ∧ 3 ≤ m then 1 else 0)

/-- Proleptic-Gregorian ordinal of a calendar date (day 1 = 0001-01-01, as in
Python `date.toordinal`). -/
def toOrdinal (y m d : Nat) : Nat :=
  365 * (y - 1) + (y - 1) / 4 - (y - 1) / 100 + (y - 1) / 400
    + daysBeforeMonth (isLeap y) m + d

/-- A Python `datetime`: ordinal day plus seconds elapsed since its
midnight (sub-second precision is irrelevant to a `.days` computation and is
dropped). -/
structure PyDateTime where
  ord : Nat
  sec : Nat
deriving DecidableEq

/-- `datetime.strptime(_, "%Y-%m-%d")`: midnight of the given date. -/
def parseDate (y m d : Nat) : PyDateTime := ⟨toOrdinal y m d, 0⟩

/-- Seconds since the epoch of ordinal 0. -/
def totalSeconds (t : PyDateTime) : Int := (t.ord : Int) * 86400 + (t.sec : Int)

/-- `(a - b).days` for Python datetimes: flooring division of the signed
second difference by 86400. -/
def timedeltaDays (a b : PyDateTime) : Int :=
  Int.fdiv (totalSeconds a - totalSeconds b) 86400

/-- `days_left = (deadline - datetime.now()).days` for a knowledge-base
deadline date. -/
def days_left (dl : Nat × Nat × Nat) (now : PyDateTime) : Int :=
  timedeltaDays (parseDate dl.1 dl.2.1 dl.2.2) now

/-- `deadline.strftime("%B %d, %Y")` month names. -/
def monthName : Nat → String
  | 1 => "January" | 2 => "February" | 3 => "March" | 4 => "April"
  | 5 => "May" | 6 => "June" | 7 => "July" | 8 => "August"
  | 9 => "September" | 10 => "October" | 11 => "November" | 12 => "December"
  | _ => ""

/-- Zero-padded two-digit day, as `%d` renders it. -/
def pad2 (n : Nat) : String := (if n < 10 then "0" else "") ++ toString n

/-- `deadline.strftime("%B %d, %Y")`. -/
def fmtLongDate (y m d : Nat) : String :=
  monthName m ++ " " ++ pad2 d ++ ", " ++ toString y

/-! ### Response handlers (shared text, parameterized by the variant's
knowledge base and upload-help string where the variants differ) -/

/-- `handle_deadline_query` (same in both variants, up to the knowledge
base).  The knowledge base stores structured dates, so the `strptime` failure
branch cannot fire. -/
def handle_deadline_query (kb : KB) (now : PyDateTime) (_query : String)
    (detected_programs : List String) : String :=
  if detected_programs = [] then
    "Which program deadline are you interested in? (undergraduate/graduate/phd/scholarship)"
  else
    String.intercalate "\n" (detected_programs.map (fun program =>
      match kb.deadlines program with
      | some dl =>
        "The application deadline for " ++ program ++ " program is " ++
          fmtLongDate dl.1 dl.2.1 dl.2.2 ++ ". That" ++ apo ++ "s " ++
          toString (days_left dl now) ++ " days from today."
      | none =>
        "I don" ++ apo ++ "t have deadline information for " ++ program ++ " program."))

/-- `handle_documents_query` (same in both variants). -/
def handle_documents_query (kb : KB) (_query : String)
    (detected_programs : List String) : String :=
  if detected_programs = [] then
    "Which program documents are you asking about? (undergraduate/graduate/phd)"
  else
    String.intercalate "\n\n" (detected_programs.map (fun program =>
      match kb.documents program with
      | some docs =>
        "Required documents for " ++ program ++ " program:\n- " ++
          String.intercalate "\n- " docs
      | none =>
        "I don" ++ apo ++ "t have document requirements for " ++ program ++ " program."))

/-- `handle_fees_query` (same in both variants). -/
def handle_fees_query (kb : KB) (_query : String)
    (detected_programs : List String) : String :=
  if detected_programs = [] then
    "Which program fees are you asking about? (undergraduate/graduate/phd)"
  else
    String.intercalate "\n\n" (detected_programs.map (fun program =>
      match kb.fees program with
      | some fees =>
        "Fee structure for " ++ program ++ " program:\n- Application fee: $" ++
          toString fees.1 ++ "\n- Tuition deposit (if admitted): $" ++ toString fees.2
      | none =>
        "I don" ++ apo ++ "t have fee information for " ++ program ++ " program."))

/-- `handle_status_query` (same in both variants); its only session read is
`user_sessions[user_id]['documents']` when both the session and the key
exist, passed here as an `Option`. -/
def handle_status_query (docs : Option (List String)) : String :=
  match docs with
  | some ds =>
    "Your application is being processed. We" ++ apo ++ "ve received " ++
      toString ds.length ++ " documents from you."
  | none =>
    "Your application is currently under review. We" ++ apo ++ "ll notify you when there" ++
      apo ++ "s an update."

/-- First-letter capitalization of a word, as Python `str.title` does. -/
def titleWord (w : List Char) : List Char :=
  match w with
  | [] => []
  | c :: cs => upperChar c :: cs.map lowerChar

/-- Python `s.title()` restricted to space-separated words (the only shape the
FAQ topic keys take). -/
def pyTitle (s : String) : String :=
  String.intercalate " " ((splitChar ' ' s.data).map (fun l => String.mk (titleWord l)))

/-- Python `s.replace('_', ' ')`. -/
def underscoreToSpace (s : String) : String :=
  ⟨s.data.map (fun c => if c = '_' then ' ' else c)⟩

/-- `handle_help_query` (same in both variants, up to the upload-help text). -/
def handle_help_query (kb : KB) (uploadHelpMsg : String) (query : String) : String :=
  if substrOf "upload" (lowerStr query) || substrOf "file" (lowerStr query) then
    uploadHelpMsg ++ " " ++ fileTypesMsg
  else
    "I can help with:\n" ++
      String.intercalate "\n" (kb.faqs.map (fun p => "- " ++ pyTitle (underscoreToSpace p.1))) ++
      "\n\nPlease ask about any specific topic."

/-- `handle_upload_query` (same in both variants, up to the upload-help text);
note it takes no user argument. -/
def handle_upload_query (uploadHelpMsg : String) : String :=
  uploadHelpMsg ++ " " ++ fileTypesMsg

/-- `handle_contact_query` (same in both variants); note it takes no user
argument. -/
def handle_contact_query (kb : KB) : String :=
  ((kb.faqs.lookup "contact").getD
    "You can contact the admissions office at admissions@university.edu")

/-- `general_responses['upload_help']` of the threaded variant. -/
def uploadHelpV1 : String :=
  "You can upload documents like transcripts, recommendation letters, or your CV by clicking the " ++
    apo ++ "Upload File" ++ apo ++ " button."

/-- `general_responses['upload_help']` of the simple variant. -/
def uploadHelpV2 : String :=
  "You can upload documents like transcripts, recommendation letters, or your CV using the file uploader below."

/-- The success confirmation of `handle_file_upload`. -/
def uploadSuccessMsg (filename : String) : String :=
  "Document " ++ apo ++ filename ++ apo ++ " uploaded successfully! We" ++ apo ++
    "ll process it shortly."

/-- The fixed invalid-type reply of `handle_file_upload`. -/
def invalidTypeMsg : String := "Invalid file type. Please upload PDF, JPG, or PNG files."

/-- The generic apology the threaded variant produces when query processing
raises. -/
def processErrorMsg : String :=
  "I encountered an error processing your request. Please try again."

/-- The apology the threaded variant produces when `handle_file_upload`
raises. -/
def uploadErrorMsgV1 : String := "I encountered an error processing your upload."

/-- Pointwise update of a string-keyed map. -/
def updMap {α : Type} (m : String → Option α) (k : String) (v : α) :
    String → Option α :=
  fun x => if x = k then some v else m x

namespace V1

/-!  The threaded variant, `src/university-admission-chatbot/chatbot.py`. -/

/-- A session of the threaded variant: every session is created by
`get_response` with a `'messages'` list; `'documents'` appears only after a
successful upload. -/
structure Session where
  messages : List String
  documents : Option (List String)
deriving DecidableEq

/-- The `user_sessions` dict. -/
abbrev Sessions := String → Option Session

/-- The empty `user_sessions` dict of a fresh chatbot. -/
def emptySessions : Sessions := fun _ => none

/-- One step of the `getattr`-based dispatch loop of
`_process_query_thread`: `handle_{intent}_query` looked up by name.
`greeting` has no handler, so `getattr` yields `None` and the intent is
skipped; `handle_upload_query` and `handle_contact_query` take no user
argument, so calling them as `handler(user_id)` raises `TypeError`. -/
def dispatch (now : PyDateTime) (ss : Sessions) (uid query : String)
    (programs : List String) : String → Except Unit (Option String)
  | "deadline" => .ok (some (handle_deadline_query kbV1 now query programs))
  | "documents" => .ok (some (handle_documents_query kbV1 query programs))
  | "fees" => .ok (some (handle_fees_query kbV1 query programs))
  | "status" => .ok (some (handle_status_query ((ss uid).bind (fun s => s.documents))))
  | "help" => .ok (some (handle_help_query kbV1 uploadHelpV1 query))
  | "greeting" => .ok none
  | "upload" => .error ()
  | "contact" => .error ()
  | _ => .ok none

/-- The `for intent in analysis['intents']` loop: collects the handler
outputs in order, or stops at the first `TypeError`. -/
def composeParts (now : PyDateTime) (ss : Sessions) (uid query : String)
    (programs : List String) : List String → Except Unit (List String)
  | [] => .ok []
  | i :: rest =>
    match dispatch now ss uid query programs i with
    | .error e => .error e
    | .ok h =>
      match composeParts now ss uid query programs rest with
      | .error e => .error e
      | .ok t =>
        match h with
        | some s => .ok (s :: t)
        | none => .ok t

/-- `_process_query_thread`: returns the queue contents after the thread has
finished (it always puts exactly one string) and the updated sessions.  The
raw query is appended to the session only on the compose branch, after the
handler loop has run without raising. -/
def _process_query_thread (T : Tokenizer) (pick : List String → String)
    (now : PyDateTime) (ss : Sessions) (uid query : String)
    (initial_greeting : Bool) : List String × Sessions :=
  let analysis := analyze_query T query
  if analysis.intents.contains "greeting" && initial_greeting then
    ([pick greetingPool], ss)
  else if analysis.intents.isEmpty then
    ([pick fallbackPool], ss)
  else
    match composeParts now ss uid query analysis.programs analysis.intents with
    | .error _ => ([processErrorMsg], ss)
    | .ok parts =>
      let parts2 := if parts.isEmpty && !analysis.programs.isEmpty then
          ["I can help with information about " ++
            String.intercalate ", " analysis.programs ++
            " programs. Would you like to know about deadlines, required documents, or fees?"]
        else parts
      match ss uid with
      | none => ([processErrorMsg], ss)
      | some s =>
        let ss2 := updMap ss uid ⟨s.messages ++ [query], s.documents⟩
        let joined := String.intercalate "\n\n" (parts2.filter (fun p => p ≠ ""))
        ([if joined = "" then pick fallbackPool else joined], ss2)

/-- The bounded-wait delivery of `get_response`: take the queued result if it
arrived within the 5-second bound; otherwise pick a timeout placeholder, join
the thread, and — the queue then being non-empty — take the real result from
the queue in its place. -/
def deliver (pick : List String → String) (arrivedInTime : Bool)
    (queued : List String) : String :=
  if arrivedInTime then
    queued.headD processErrorMsg
  else
    match queued with
    | [] => pick timeoutPool
    | r :: _ => r

/-- `get_response` of the threaded variant.  `arrivedInTime` records whether
the background unit beat the 5-second bound (scheduling is external to the
model); the session for the user is created before the thread starts, and the
thread has sole access to the sessions map during the call. -/
def get_response (T : Tokenizer) (pick : List String → String)
    (now : PyDateTime) (arrivedInTime : Bool) (ss : Sessions)
    (uid query : String) : String × Sessions :=
  let ss1 := match ss uid with
    | none => updMap ss uid ⟨[], none⟩
    | some _ => ss
  let message_count := match ss1 uid with
    | some s => s.messages.length
    | none => 0
  let initial_greeting := decide (message_count ≤ 2)
  let r := _process_query_thread T pick now ss1 uid query initial_greeting
  (deliver pick arrivedInTime r.1, r.2)

/-- `handle_file_upload` of the threaded variant: reads
`user_sessions[user_id]` without creating it, so a missing session raises
`KeyError`, absorbed by the handler's `except` into the upload apology. -/
def handle_file_upload (ss : Sessions) (uid : String) (file : Option String) :
    String × Sessions :=
  match file with
  | none => (invalidTypeMsg, ss)
  | some name =>
    if allowed_file name then
      match ss uid with
      | none => (uploadErrorMsgV1, ss)
      | some s =>
        (uploadSuccessMsg name,
         updMap ss uid ⟨s.messages, some (s.documents.getD [] ++ [name])⟩)
    else (invalidTypeMsg, ss)

end V1

namespace V2

/-!  The simple variant, `src/chatbot.py`. -/

/-- A session of the simple variant: `get_response` creates it as
`{'messages': []}`, `handle_file_upload` creates it as `{'documents': []}`,
so either key may be absent. -/
structure Session where
  messages : Option (List String)
  documents : Option (List String)
deriving DecidableEq

/-- The `user_sessions` dict. -/
abbrev Sessions := String → Option Session

/-- The empty `user_sessions` dict of a fresh chatbot. -/
def emptySessions : Sessions := fun _ => none

/-- `log_interaction`: creates the session if absent and appends the raw
query to its message list.  A session created by an earlier upload has no
`'messages'` key, so the append raises `KeyError`. -/
def log_interaction (ss : Sessions) (uid query : String) : Except Unit Sessions :=
  match ss uid with
  | none => .ok (updMap ss uid ⟨some [query], none⟩)
  | some s =>
    match s.messages with
    | none => .error ()
    | some ms => .ok (updMap ss uid ⟨some (ms ++ [query]), s.documents⟩)

/-- One arm of the `if/elif` dispatch chain of `get_response`; each matched
intent contributes its handler output followed by a blank line, and
`greeting` (which has no arm) contributes nothing. -/
def dispatch (now : PyDateTime) (ss : Sessions) (uid query : String)
    (programs : List String) : String → String
  | "deadline" => handle_deadline_query kbV2 now query programs ++ "\n\n"
  | "documents" => handle_documents_query kbV2 query programs ++ "\n\n"
  | "fees" => handle_fees_query kbV2 query programs ++ "\n\n"
  | "status" => handle_status_query ((ss uid).bind (fun s => s.documents)) ++ "\n\n"
  | "help" => handle_help_query kbV2 uploadHelpV2 query ++ "\n\n"
  | "upload" => handle_upload_query uploadHelpV2 ++ "\n\n"
  | "contact" => handle_contact_query kbV2 ++ "\n\n"
  | _ => ""

/-- `get_response` of the simple variant: log the query (which appends it to
the session), compute the initial-greeting flag from the logged message
count, classify, then short-circuit on greeting or empty intents, else
compose the matched handlers in order. -/
def get_response (T : Tokenizer) (pick : List String → String)
    (now : PyDateTime) (ss : Sessions) (uid query : String) :
    Except Unit (String × Sessions) :=
  match log_interaction ss uid query with
  | .error e => .error e
  | .ok ss1 =>
    let msgs := match ss1 uid with
      | some s => s.messages.getD []
      | none => []
    let initial_greeting := decide (msgs.length ≤ 2)
    let analysis := analyze_query T query
    if analysis.intents.contains "greeting" && initial_greeting then
      .ok (pick greetingPool, ss1)
    else if analysis.intents.isEmpty then
      .ok (pick fallbackPool, ss1)
    else
      let response := analysis.intents.foldl
        (fun acc i => acc ++ dispatch now ss1 uid query analysis.programs i) ""
      let response := if response = "" && !analysis.programs.isEmpty then
          "I can help with information about " ++
            String.intercalate ", " analysis.programs ++
            " programs. Would you like to know about deadlines, required documents, or fees?"
        else response
      .ok ((if response = "" then pick fallbackPool else pyStrip response), ss1)

/-- `handle_file_upload` of the simple variant: creates the session as
`{'documents': []}` when absent, but when the session exists without a
`'documents'` key (a user who has chatted but never uploaded) the append
raises `KeyError`, and this variant has no `except` to absorb it. -/
def handle_file_upload (ss : Sessions) (uid : String) (file : Option String) :
    Except Unit (String × Sessions) :=
  match file with
  | none => .ok (invalidTypeMsg, ss)
  | some name =>
    if allowed_file name then
      match ss uid with
      | none => .ok (uploadSuccessMsg name, updMap ss uid ⟨none, some [name]⟩)
      | some s =>
        match s.documents with
        | none => .error ()
        | some docs =>
          .ok (uploadSuccessMsg name, updMap ss uid ⟨s.messages, some (docs ++ [name])⟩)
    else .ok (invalidTypeMsg, ss)

end V2

/-! ### Helpers for stating properties -/

/-- Detects the modelled-exception outcome of a fallible call. -/
def isExceptError {α : Type} : Except Unit α → Bool
  | .error _ => true
  | .ok _ => false

namespace V2

/-- The message list recorded for a user (empty when the session or its
`'messages'` key is absent). -/
def msgsAt (ss : Sessions) (uid : String) : List String :=
  match ss uid with
  | some s => s.messages.getD []
  | none => []

/-- The user's session, if any, carries a `'messages'` list — true for every
session this variant's `get_response` has ever touched, false only for a
session created by `handle_file_upload` alone. -/
def msgsKeyOk (ss : Sessions) (uid : String) : Prop :=
  ss uid = none ∨ ∃ s, ss uid = some s ∧ s.messages.isSome

end V2

namespace V1

/-- The recorded message count of a user (zero when the session is absent). -/
def msgCount (ss : Sessions) (uid : String) : Nat :=
  match ss uid with
  | some s => s.messages.length
  | none => 0

end V1

/-! ### Claims -/

/-- C3: for every query, an intent is in the classifier's output iff some
single token's exact literal text equals a member of that intent's keyword
list (so a token that merely contains a keyword as a proper substring does
not trigger it); since no tokenizer token contains a space, a multi-word
keyword phrase can never equal any token and so never triggers detection; and
the detected intents are retained in the fixed scan order
`{deadline, documents, fees, status, help, greeting, upload, contact}`. -/
theorem c3_token_exact_intents (toks : List String)
    (hsp : ∀ t ∈ toks, ' ' ∉ t.data) :
    (∀ intent, intent ∈ detectIntents toks ↔
      intent ∈ intentOrder ∧ ∃ t ∈ toks, t ∈ intentKeywords intent) ∧
    (∀ intent kw, kw ∈ intentKeywords intent → ' ' ∈ kw.data →
      ∀ t ∈ toks, t ≠ kw) ∧
    List.Sublist (detectIntents toks) intentOrder := by
  refine ⟨fun intent => by simp [detectIntents, List.mem_filter, List.any_eq_true],
    ?_, List.filter_sublist _⟩
  intro intent kw _ hkw t ht heq
  exact hsp t ht (heq ▸ hkw)

/-- Witness for C3 at the concrete token list `["hello", "there"]`. -/
theorem c3_token_exact_intents_witness :
    (∀ intent, intent ∈ detectIntents ["hello", "there"] ↔
      intent ∈ intentOrder ∧ ∃ t ∈ ["hello", "there"], t ∈ intentKeywords intent) ∧
    (∀ intent kw, kw ∈ intentKeywords intent → ' ' ∈ kw.data →
      ∀ t ∈ ["hello", "there"], t ≠ kw) ∧
    List.Sublist (detectIntents ["hello", "there"]) intentOrder :=
  c3_token_exact_intents ["hello", "there"] (by decide)

/-- C8: for every query, a program tag is in the classifier's output iff one
of its keywords occurs as a substring anywhere in the lower-cased query (even
inside a larger word); each program appears at most once, in the fixed scan
order `{undergraduate, graduate, phd, scholarship}`. -/
theorem c8_program_substring_detection (query : String) :
    (∀ program, program ∈ detectPrograms query ↔
      program ∈ programOrder ∧
        ∃ kw ∈ programKeywords program, kw.data <:+: (lowerStr query).data) ∧
    List.Sublist (detectPrograms query) programOrder ∧
    (detectPrograms query).Nodup :=
  ⟨fun program => by simp [detectPrograms, List.mem_filter, List.any_eq_true, substrOf],
   List.filter_sublist _, List.Nodup.filter _ (by decide)⟩

/-- C5 counterexample: the claim says `days_left` is the calendar-date
difference with no time-of-day component, reporting 5 for deadline 2024-12-15
with today 2024-12-10.  The code subtracts the full `datetime.now()` from the
deadline's midnight and floors, so at noon of 2024-12-10 it computes 4, not
the calendar difference 5. -/
theorem c5_cex :
    days_left (2024, 12, 15) ⟨toOrdinal 2024 12 10, 43200⟩ = 4 ∧
    handle_deadline_query kbV1 ⟨toOrdinal 2024 12 10, 43200⟩ "deadline" ["undergraduate"] =
      "The application deadline for undergraduate program is December 15, 2024. That" ++
        apo ++ "s 4 days from today." ∧
    toOrdinal 2024 12 15 - toOrdinal 2024 12 10 = 5 := by
  decide

/-- C5 amended: `days_left` is the floor of (deadline midnight − now) in whole
days, so it carries a time-of-day component: for knowledge-base deadline
2024-12-15 and now inside 2024-12-10 it is 5 exactly at midnight and 4 at any
later second of that day; the handler reports the 5-day text when now is the
bare date (midnight), as `deadline(["undergraduate"])` does. -/
theorem c5_days_left_floor (s : Nat) (hs : s < 86400) :
    days_left (2024, 12, 15) ⟨toOrdinal 2024 12 10, s⟩ = (if s = 0 then 5 else 4) ∧
    handle_deadline_query kbV1 (parseDate 2024 12 10) "deadline" ["undergraduate"] =
      "The application deadline for undergraduate program is December 15, 2024. That" ++
        apo ++ "s 5 days from today." := by
  constructor
  · have hD : toOrdinal 2024 12 15 = 739235 := by decide
    have hN : toOrdinal 2024 12 10 = 739230 := by decide
    unfold days_left timedeltaDays totalSeconds parseDate
    simp only [hD, hN]
    have h1 : ((739235 : Nat) : Int) * 86400 + ((0 : Nat) : Int) -
        (((739230 : Nat) : Int) * 86400 + (s : Int)) = ((432000 - s : Nat) : Int) := by
      push_cast [Nat.cast_sub (by omega : s ≤ 432000)]
      ring
    rw [h1]
    rw [show (86400 : Int) = ((86400 : Nat) : Int) from rfl]
    rw [← Int.ofNat_fdiv]
    split
    · rename_i h; subst h; decide
    · rename_i h
      have h2 : (432000 - s) / 86400 = 4 := by omega
      rw [h2]
      rfl
  · decide

/-- Witness for C5 (amended) at one second past midnight. -/
theorem c5_days_left_floor_witness :
    days_left (2024, 12, 15) ⟨toOrdinal 2024 12 10, 1⟩ = (if 1 = 0 then 5 else 4) ∧
    handle_deadline_query kbV1 (parseDate 2024 12 10) "deadline" ["undergraduate"] =
      "The application deadline for undergraduate program is December 15, 2024. That" ++
        apo ++ "s 5 days from today." :=
  c5_days_left_floor 1 (by decide)

/-- C2 counterexample: the claim says a timed-out caller immediately receives
one of the fixed "still processing" placeholder strings and the late true
answer is discarded.  In the code the timeout branch joins the background
thread and, the queue then holding the thread's result, replaces the
placeholder with it: a timed-out call for "fee" delivers the fees
clarification prompt, which is none of the three placeholder strings. -/
theorem c2_cex :
    (V1.get_response wsTok pickHead (parseDate 2024 12 10) false
        V1.emptySessions "u" "fee").1 =
      "Which program fees are you asking about? (undergraduate/graduate/phd)" ∧
    ∀ t ∈ timeoutPool,
      (V1.get_response wsTok pickHead (parseDate 2024 12 10) false
        V1.emptySessions "u" "fee").1 ≠ t := by
  decide

/-- C2 amended: the background unit is not cancelled and always enqueues
exactly one result; on timeout the orchestrator picks a placeholder but then
joins the unit and takes its late result from the queue, so the caller
receives the background unit's answer whether or not the 5-second bound
elapsed — the placeholder is never the delivered response (it could only be
if the queue were empty after the join, which never happens). -/
theorem c2_late_result_redelivered (T : Tokenizer) (pick : List String → String)
    (now : PyDateTime) (ss : V1.Sessions) (uid query : String) (ig : Bool) :
    (∃ r, (V1._process_query_thread T pick now ss uid query ig).1 = [r]) ∧
    (V1.get_response T pick now false ss uid query).1 =
      (V1.get_response T pick now true ss uid query).1 := by
  have hsing : ∀ (s2 : V1.Sessions) (g : Bool),
      ∃ r, (V1._process_query_thread T pick now s2 uid query g).1 = [r] := by
    intro s2 g
    unfold V1._process_query_thread
    dsimp only
    repeat' split
    all_goals exact ⟨_, rfl⟩
  refine ⟨hsing ss ig, ?_⟩
  unfold V1.get_response
  dsimp only
  obtain ⟨r, hr⟩ := hsing
    (match ss uid with
     | none => updMap ss uid ⟨[], none⟩
     | some _ => ss)
    (decide ((match (match ss uid with
     | none => updMap ss uid ⟨[], none⟩
     | some _ => ss) uid with
     | some s => s.messages.length
     | none => 0) ≤ 2))
  rw [hr]
  rfl

/-- C1 counterexample: in the threaded variant the session append sits on the
compose branch only, after the handler loop; the greeting and fallback
short-circuits return before it.  So after `get_response(u, "hi")` (greeting
short-circuit) and `get_response(u, "bye")` (fallback short-circuit) user u's
message list is empty, not the claimed two-entry list `["hi", "bye"]`. -/
theorem c1_cex :
    (let now := parseDate 2024 12 10
     let ss1 := (V1.get_response wsTok pickHead now true V1.emptySessions "u" "hi").2
     let ss2 := (V1.get_response wsTok pickHead now true ss1 "u" "bye").2
     ss2 "u") = some ⟨[], none⟩ := by
  decide

/-- C1 amended: in the simple variant (`src/chatbot.py`) `log_interaction`
appends the raw query exactly once at the start of every `get_response` call,
regardless of branch, and touches no other user's session (provided the
session, if present, carries a message list — always the case for sessions
this variant's `get_response` creates); in particular `get_response(u,"hi")`
then `get_response(u,"bye")` leaves exactly `["hi", "bye"]` for u.  In the
threaded variant the append happens only when the compose branch completes
without raising. -/
theorem c1_append_once (T : Tokenizer) (pick : List String → String)
    (now : PyDateTime) (ss : V2.Sessions) (uid query : String)
    (h : V2.msgsKeyOk ss uid) :
    (∃ out ss1, V2.get_response T pick now ss uid query = .ok (out, ss1) ∧
      V2.msgsAt ss1 uid = V2.msgsAt ss uid ++ [query] ∧
      ∀ v, v ≠ uid → ss1 v = ss v) ∧
    ((match V2.get_response wsTok pickHead (parseDate 2024 12 10)
        V2.emptySessions "u" "hi" with
     | .ok (_, t1) =>
       (match V2.get_response wsTok pickHead (parseDate 2024 12 10) t1 "u" "bye" with
        | .ok (_, t2) => t2 "u"
        | .error _ => none)
     | .error _ => none) = some ⟨some ["hi", "bye"], none⟩) := by
  constructor
  · have hlog : ∃ ss1, V2.log_interaction ss uid query = .ok ss1 ∧
        V2.msgsAt ss1 uid = V2.msgsAt ss uid ++ [query] ∧
        ∀ v, v ≠ uid → ss1 v = ss v := by
      rcases h with h | ⟨s, hs, hm⟩
      · refine ⟨updMap ss uid ⟨some [query], none⟩, ?_, ?_, ?_⟩
        · simp [V2.log_interaction, h]
        · simp [V2.msgsAt, h, updMap]
        · intro v hv; simp [updMap, hv]
      · obtain ⟨ms, hms⟩ := Option.isSome_iff_exists.mp hm
        refine ⟨updMap ss uid ⟨some (ms ++ [query]), s.documents⟩, ?_, ?_, ?_⟩
        · simp [V2.log_interaction, hs, hms]
        · simp [V2.msgsAt, hs, hms, updMap]
        · intro v hv; simp [updMap, hv]
    obtain ⟨ss1, hlog2, hmsg, hoth⟩ := hlog
    unfold V2.get_response
    rw [hlog2]
    dsimp only
    split
    · exact ⟨_, _, rfl, hmsg, hoth⟩
    · split
      · exact ⟨_, _, rfl, hmsg, hoth⟩
      · exact ⟨_, _, rfl, hmsg, hoth⟩
  · decide

/-- Witness for C1 (amended) on a fresh user sending "hi". -/
theorem c1_append_once_witness :
    (∃ out ss1, V2.get_response wsTok pickHead (parseDate 2024 12 10)
        V2.emptySessions "u" "hi" = .ok (out, ss1) ∧
      V2.msgsAt ss1 "u" = V2.msgsAt V2.emptySessions "u" ++ ["hi"] ∧
      ∀ v, v ≠ "u" → ss1 v = V2.emptySessions v) ∧
    ((match V2.get_response wsTok pickHead (parseDate 2024 12 10)
        V2.emptySessions "u" "hi" with
     | .ok (_, t1) =>
       (match V2.get_response wsTok pickHead (parseDate 2024 12 10) t1 "u" "bye" with
        | .ok (_, t2) => t2 "u"
        | .error _ => none)
     | .error _ => none) = some ⟨some ["hi", "bye"], none⟩) :=
  c1_append_once wsTok pickHead (parseDate 2024 12 10) V2.emptySessions "u" "hi"
    (Or.inl rfl)

/-- C4 counterexample: the claim says a user's 4th message containing "hello"
is not short-circuited.  In the threaded variant greeting turns are never
recorded in the session (the append sits on the compose branch), so a user
whose first three turns were "hello" still has message count 0, and the 4th
"hello" is short-circuited to the greeting pool all the same. -/
theorem c4_cex :
    (let now := parseDate 2024 12 10
     let s1 := (V1.get_response wsTok pickHead now true V1.emptySessions "u" "hello").2
     let s2 := (V1.get_response wsTok pickHead now true s1 "u" "hello").2
     let s3 := (V1.get_response wsTok pickHead now true s2 "u" "hello").2
     (V1.get_response wsTok pickHead now true s3 "u" "hello").1) = pickHead greetingPool ∧
    pickHead greetingPool ∈ greetingPool ∧ pickHead greetingPool ∉ fallbackPool := by
  decide

/-- C4 amended: the greeting short-circuit fires iff classification yields the
greeting intent and the recorded message count is ≤ 2, returning the
`random.choice` pick from the fixed 3-element greeting pool; a brand-new user
sending "hello" gets a greeting-pool response; and a 4th "hello" is
classified normally (falling through to the fallback pool, since bare "hello"
matches no handler) provided at least three of the user's messages are
actually recorded — which the simple variant guarantees for any three prior
calls, but the threaded variant only for turns that completed composition. -/
theorem c4_greeting_shortcircuit :
    (∀ (T : Tokenizer) (pick : List String → String) (now : PyDateTime)
        (arr : Bool) (ss : V1.Sessions) (uid query : String),
      "greeting" ∈ (analyze_query T query).intents → V1.msgCount ss uid ≤ 2 →
      (V1.get_response T pick now arr ss uid query).1 = pick greetingPool) ∧
    (∀ (pick : List String → String) (now : PyDateTime) (arr : Bool)
        (ss : V1.Sessions) (uid : String),
      3 ≤ V1.msgCount ss uid →
      (V1.get_response wsTok pick now arr ss uid "hello").1 = pick fallbackPool) ∧
    (∀ (pick : List String → String) (now : PyDateTime) (ss : V2.Sessions)
        (uid : String) (s : V2.Session) (ms : List String),
      ss uid = some s → s.messages = some ms → 3 ≤ ms.length →
      ∃ ss1, V2.get_response wsTok pick now ss uid "hello" = .ok (pick fallbackPool, ss1)) ∧
    (V1.get_response wsTok pickHead (parseDate 2024 12 10) true
      V1.emptySessions "v" "hello").1 ∈ greetingPool := by
  refine ⟨?_, ?_, ?_, by decide⟩
  · intro T pick now arr ss uid query h1 h2
    unfold V1.get_response V1._process_query_thread
    dsimp only
    cases hss : ss uid with
    | none =>
      cases arr <;> simp [hss, updMap, h1] <;> rfl
    | some s =>
      have h2a : s.messages.length ≤ 2 := by simpa [V1.msgCount, hss] using h2
      cases arr <;> simp [hss, h1, h2a] <;> rfl
  · intro pick now arr ss uid h3
    obtain ⟨s, hss⟩ : ∃ s, ss uid = some s := by
      cases hss : ss uid with
      | none =>
        exfalso
        unfold V1.msgCount at h3
        rw [hss] at h3
        simp at h3
      | some s => exact ⟨s, rfl⟩
    have hlen : ¬ (s.messages.length ≤ 2) := by
      unfold V1.msgCount at h3
      rw [hss] at h3
      simp at h3
      omega
    have ha : analyze_query wsTok "hello" = ⟨[], ["greeting"], []⟩ := by decide
    unfold V1.get_response V1._process_query_thread
    dsimp only
    rw [ha]
    cases arr <;> simp [hss, hlen, V1.composeParts, V1.dispatch] <;> rfl
  · intro pick now ss uid s ms hss hms h3
    have ha : analyze_query wsTok "hello" = ⟨[], ["greeting"], []⟩ := by decide
    refine ⟨updMap ss uid ⟨some (ms ++ ["hello"]), s.documents⟩, ?_⟩
    have hlen : ¬ ((ms ++ ["hello"]).length ≤ 2) := by simp; omega
    unfold V2.get_response V2.log_interaction
    rw [hss]
    dsimp only
    rw [hms]
    dsimp only
    rw [ha]
    simp [updMap, hlen, V2.dispatch]
    intro h
    exact absurd h (by omega)

/-- Witness for C4 (amended): first message "hello" of a fresh user is
short-circuited; a user with three recorded messages gets the fallback pool
on "hello" in both variants. -/
theorem c4_greeting_shortcircuit_witness :
    (V1.get_response wsTok pickHead (parseDate 2024 12 10) true
      V1.emptySessions "u" "hello").1 = pickHead greetingPool ∧
    (V1.get_response wsTok pickHead (parseDate 2024 12 10) true
      (updMap V1.emptySessions "w" ⟨["a", "b", "c"], none⟩) "w" "hello").1 =
      pickHead fallbackPool ∧
    ∃ ss1, V2.get_response wsTok pickHead (parseDate 2024 12 10)
      (updMap V2.emptySessions "w" ⟨some ["a", "b", "c"], none⟩) "w" "hello" =
        .ok (pickHead fallbackPool, ss1) :=
  ⟨c4_greeting_shortcircuit.1 wsTok pickHead (parseDate 2024 12 10) true
      V1.emptySessions "u" "hello" (by decide) (by decide),
   c4_greeting_shortcircuit.2.1 pickHead (parseDate 2024 12 10) true
      (updMap V1.emptySessions "w" ⟨["a", "b", "c"], none⟩) "w" (by decide),
   c4_greeting_shortcircuit.2.2.1 pickHead (parseDate 2024 12 10)
      (updMap V2.emptySessions "w" ⟨some ["a", "b", "c"], none⟩) "w"
      ⟨some ["a", "b", "c"], none⟩ ["a", "b", "c"] (by decide) rfl (by decide)⟩

/-- C6: evaluation of the code at the failing inputs.  The claim (and §4.6 of
the spec) says `handle_file_upload` creates the session if absent, appends,
and returns the success confirmation.  In the threaded variant an upload for
a user with **no** session raises `KeyError` (reading
`user_sessions[user_id]` before the lazy `'documents'` init), absorbed into
the upload apology, with nothing recorded; in the simple variant a user whose
session exists **without** a `'documents'` key (a user who chatted first)
raises an uncaught `KeyError`.  Only the simple variant's fresh-user path
behaves as claimed. -/
theorem c6_upload_eval :
    (V1.handle_file_upload V1.emptySessions "u" (some "transcript.pdf")).1 =
      uploadErrorMsgV1 ∧
    ((V1.handle_file_upload V1.emptySessions "u" (some "transcript.pdf")).2) "u" = none ∧
    isExceptError (V2.handle_file_upload
      (updMap V2.emptySessions "u" ⟨some ["hi"], none⟩) "u" (some "a.pdf")) = true ∧
    ((match V2.handle_file_upload V2.emptySessions "u" (some "transcript.pdf") with
      | .ok (r, ss1) => some (r, ss1 "u")
      | .error _ => none) =
      some (uploadSuccessMsg "transcript.pdf", some ⟨none, some ["transcript.pdf"]⟩)) := by
  decide

/-- C7 counterexample: the claim says `handle_file_upload` never raises, but
in the simple variant an upload of a valid file for a user whose session was
created by chatting (so it has `'messages'` but no `'documents'` key) raises
an uncaught `KeyError`. -/
theorem c7_cex :
    isExceptError (V2.handle_file_upload
      (updMap V2.emptySessions "chatty" ⟨some ["hello"], none⟩) "chatty"
      (some "cv.pdf")) = true := by
  decide

/-- `takeWhile` runs through a prefix whose members all satisfy the
predicate. -/
theorem takeWhile_append_all {α : Type} (p : α → Bool) (l1 l2 : List α)
    (h : ∀ x ∈ l1, p x = true) :
    (l1 ++ l2).takeWhile p = l1 ++ l2.takeWhile p := by
  induction l1 with
  | nil => rfl
  | cons a t ih =>
    simp only [List.cons_append, List.takeWhile_cons, h a (by simp)]
    rw [ih (fun x hx => h x (by simp [hx]))]
    simp

/-- `rsplit('.', 1)[1]` of `stem ++ "." ++ ext` is `ext` when `ext` is
dot-free (the shown dot is then the last one). -/
theorem afterLastDot_append (stem ext : String) (h : '.' ∉ ext.data) :
    afterLastDot (stem ++ "." ++ ext) = ext := by
  have h1 : ∀ x ∈ ext.data.reverse, (decide (x ≠ '.')) = true := by
    intro x hx
    simp only [List.mem_reverse] at hx
    simp only [decide_eq_true_eq]
    intro heq
    exact h (heq ▸ hx)
  unfold afterLastDot
  have hdata : (stem ++ "." ++ ext).data = stem.data ++ '.' :: ext.data := by simp
  rw [hdata, List.reverse_append, List.reverse_cons, List.append_assoc]
  rw [show ['.'] ++ stem.data.reverse = '.' :: stem.data.reverse from rfl]
  rw [takeWhile_append_all _ _ _ h1]
  simp

/-- C7 amended: validation accepts a name iff it contains a `.` and the
suffix after the last `.`, lower-cased, is one of {pdf, jpg, jpeg, png}:
"transcript.PDF" succeeds while "transcript" and "transcript.docx" fail with
the fixed invalid-type string (in both variants, for any session state on the
failure side); the threaded variant's `handle_file_upload` never raises
(every exception is absorbed into a returned string), but the simple
variant's raises `KeyError` whenever the user's session exists without a
`'documents'` list, and is exception-free exactly when it does not. -/
theorem c7_allowed_file_validation :
    (∀ stem ext : String, '.' ∉ ext.data →
      allowed_file (stem ++ "." ++ ext) =
        decide (lowerStr ext ∈ (["pdf", "jpg", "jpeg", "png"] : List String))) ∧
    (∀ name : String, '.' ∉ name.data → allowed_file name = false) ∧
    (allowed_file "transcript.PDF" = true ∧
     allowed_file "transcript" = false ∧
     allowed_file "transcript.docx" = false ∧
     (V1.handle_file_upload (updMap V1.emptySessions "u" ⟨["hi"], none⟩) "u"
        (some "transcript.PDF")).1 = uploadSuccessMsg "transcript.PDF" ∧
     (∀ ss : V1.Sessions, ∀ uid : String,
        (V1.handle_file_upload ss uid (some "transcript")).1 = invalidTypeMsg ∧
        (V1.handle_file_upload ss uid (some "transcript.docx")).1 = invalidTypeMsg)) ∧
    (∀ (ss : V2.Sessions) (uid : String) (file : Option String),
      (∀ s, ss uid = some s → s.documents.isSome) →
      isExceptError (V2.handle_file_upload ss uid file) = false) := by
  refine ⟨?_, ?_, ⟨by decide, by decide, by decide, by decide, ?_⟩, ?_⟩
  · intro stem ext h
    unfold allowed_file
    rw [afterLastDot_append stem ext h]
    have hc : (stem ++ "." ++ ext).data.contains '.' = true := by simp
    rw [hc]
    simp
  · intro name h
    unfold allowed_file
    have hc : name.data.contains '.' = false := by simpa using h
    rw [hc]
    simp
  · intro ss uid
    constructor <;> rfl
  · intro ss uid file h
    unfold V2.handle_file_upload
    cases file with
    | none => rfl
    | some name =>
      dsimp only
      by_cases hall : allowed_file name = true
      · cases hss : ss uid with
        | none => simp [hss, isExceptError, hall]
        | some s =>
          obtain ⟨docs, hd⟩ := Option.isSome_iff_exists.mp (h s hss)
          simp [hss, hd, isExceptError, hall]
      · simp [isExceptError, hall]

/-- Witness for C7 (amended) at concrete names and session states. -/
theorem c7_allowed_file_validation_witness :
    allowed_file ("transcript" ++ "." ++ "PDF") =
      decide (lowerStr "PDF" ∈ (["pdf", "jpg", "jpeg", "png"] : List String)) ∧
    allowed_file "transcript" = false ∧
    isExceptError (V2.handle_file_upload V2.emptySessions "fresh"
      (some "transcript.pdf")) = false :=
  ⟨c7_allowed_file_validation.1 "transcript" "PDF" (by decide),
   c7_allowed_file_validation.2.1 "transcript" (by decide),
   c7_allowed_file_validation.2.2.2 V2.emptySessions "fresh" (some "transcript.pdf")
     (fun s hs => by exact absurd hs (by simp [V2.emptySessions]))⟩

/-- C9: with a tokenizer that yields no tokens and no entities on the empty
text (as the external NLP pipeline does), classifying `""` yields an analysis
with empty entities, intents and programs; and whenever classification yields
no intents, `get_response` returns a member of the fixed 3-element fallback
pool — in the threaded variant on its fallback short-circuit, in the simple
variant likewise (for any session whose record admits logging); in particular
the empty query gets a fallback-pool response. -/
theorem c9_empty_query_fallback (T : Tokenizer) (pick : List String → String)
    (hp : PickValid pick) (htok : T.tok "" = []) (hent : T.ents "" = []) :
    analyze_query T "" = ⟨[], [], []⟩ ∧
    (∀ (now : PyDateTime) (arr : Bool) (ss : V1.Sessions) (uid query : String),
      (analyze_query T query).intents = [] →
      (V1.get_response T pick now arr ss uid query).1 ∈ fallbackPool) ∧
    (∀ (now : PyDateTime) (arr : Bool) (ss : V1.Sessions) (uid : String),
      (V1.get_response T pick now arr ss uid "").1 ∈ fallbackPool) ∧
    (∀ (now : PyDateTime) (ss : V2.Sessions) (uid query : String),
      V2.msgsKeyOk ss uid → (analyze_query T query).intents = [] →
      ∃ ss1, V2.get_response T pick now ss uid query = .ok (pick fallbackPool, ss1) ∧
        pick fallbackPool ∈ fallbackPool) := by
  have h0 : analyze_query T "" = ⟨[], [], []⟩ := by
    unfold analyze_query
    rw [show lowerStr "" = "" from rfl, htok, hent]
    simp [detectIntents]
    decide
  have hV1 : ∀ (now : PyDateTime) (arr : Bool) (ss : V1.Sessions) (uid query : String),
      (analyze_query T query).intents = [] →
      (V1.get_response T pick now arr ss uid query).1 ∈ fallbackPool := by
    intro now arr ss uid query hin
    unfold V1.get_response V1._process_query_thread
    dsimp only
    cases hss : ss uid <;> cases arr <;> simp [hss, hin, V1.deliver] <;>
      exact hp _ (by decide)
  refine ⟨h0, hV1, ?_, ?_⟩
  · intro now arr ss uid
    exact hV1 now arr ss uid "" (by rw [h0])
  · intro now ss uid query hok hin
    have hlog : ∃ ss1, V2.log_interaction ss uid query = .ok ss1 := by
      rcases hok with h | ⟨s, hs, hm⟩
      · exact ⟨updMap ss uid ⟨some [query], none⟩, by simp [V2.log_interaction, h]⟩
      · obtain ⟨ms, hms⟩ := Option.isSome_iff_exists.mp hm
        exact ⟨updMap ss uid ⟨some (ms ++ [query]), s.documents⟩,
          by simp [V2.log_interaction, hs, hms]⟩
    obtain ⟨ss1, hlog2⟩ := hlog
    refine ⟨ss1, ?_, hp _ (by decide)⟩
    unfold V2.get_response
    rw [hlog2]
    dsimp only
    simp [hin]

/-- Witness for C9 with the whitespace tokenizer and head-of-pool pick. -/
theorem c9_empty_query_fallback_witness :
    analyze_query wsTok "" = ⟨[], [], []⟩ ∧
    (∀ (now : PyDateTime) (arr : Bool) (ss : V1.Sessions) (uid query : String),
      (analyze_query wsTok query).intents = [] →
      (V1.get_response wsTok pickHead now arr ss uid query).1 ∈ fallbackPool) ∧
    (∀ (now : PyDateTime) (arr : Bool) (ss : V1.Sessions) (uid : String),
      (V1.get_response wsTok pickHead now arr ss uid "").1 ∈ fallbackPool) ∧
    (∀ (now : PyDateTime) (ss : V2.Sessions) (uid query : String),
      V2.msgsKeyOk ss uid → (analyze_query wsTok query).intents = [] →
      ∃ ss1, V2.get_response wsTok pickHead now ss uid query =
          .ok (pickHead fallbackPool, ss1) ∧
        pickHead fallbackPool ∈ fallbackPool) :=
  c9_empty_query_fallback wsTok pickHead pickHead_valid (by decide) rfl

/-- C10: the `documents` and `upload` keyword lists overlap on the tokens
"upload" and "submit", so either token puts both intents (documents first) in
the classifier output.  The claimed composed response appears in the simple
variant: documents prompt, blank line, upload-help message.  In the threaded
variant the dynamic dispatch calls the zero-argument `handle_upload_query` as
`handler(user_id)`, a `TypeError` that aborts composition: the caller gets
the generic processing apology and the query is not recorded — the code
contradicts its own handler, a slip the simple variant does not share. -/
theorem c10_upload_submit_overlap :
    detectIntents ["upload"] = ["documents", "upload"] ∧
    detectIntents ["submit"] = ["documents", "upload"] ∧
    (V1.get_response wsTok pickHead (parseDate 2024 12 10) true V1.emptySessions
      "u" "upload").1 = processErrorMsg ∧
    ((V1.get_response wsTok pickHead (parseDate 2024 12 10) true V1.emptySessions
      "u" "upload").2) "u" = some ⟨[], none⟩ ∧
    ((match V2.get_response wsTok pickHead (parseDate 2024 12 10) V2.emptySessions
        "u" "upload" with
      | .ok (r, _) => r
      | .error _ => "") =
      "Which program documents are you asking about? (undergraduate/graduate/phd)\n\n" ++
        uploadHelpV2 ++ " " ++ fileTypesMsg) := by
  set_option maxRecDepth 4000 in decide

end Chatbot
